import Mathlib

/-!
# Verification of the `wopr-plugin-types` declaration package

This file embeds, in Lean 4, the parts of the `wopr-network/wopr-plugin-types`
repository that its specification makes claims about:

* the drift-check shell script `scripts/sync-check.sh` (the only executable
  logic in the repository), modelled as a pure function over an abstract
  file-system view;
* the declaration shapes of `src/storage.ts` (which embeds two distinct
  copies of the storage declarations), `src/manifest.ts`, `src/events.ts`
  and `src/plugin.ts`;
* the behavioural contracts those declarations impose on the (external)
  host runtime.  The host implementation is not part of this repository,
  so those contracts are modelled from the specification's words and the
  doc comments on the declarations; each such definition is marked
  `Modelled from the spec:`.
-/

namespace WoprPluginTypes

/-! ## The drift-check script `scripts/sync-check.sh`

The script receives the path of the core `plugin-types` directory.  We
model the relevant state of the file system as:

* `core` — the list of `(basename, content)` pairs of the `*.ts` files in
  `CORE_DIR`;
* `ext`  — the list of `(basename, content)` pairs of the `*.ts` files in
  the package's own `src/` directory (`EXT_DIR`);
* `storageSrc` — `some content` when the core storage source file
  `$CORE_DIR/../../src/storage/api/plugin-storage.ts` exists, else `none`.

The claims quantify over invocations with an existing core directory, so
the early `exit 1` for a missing `CORE_DIR` is outside the model.

One bash behaviour matters for empty trees: the loops iterate
`"$DIR"/*.ts`, and with no matching file (and no `nullglob`) the glob is
left unexpanded, so the loop body runs once with `base = "*.ts"`; the
quoted `[ -f ... ]` tests then look up that literal name in the other
tree.  The `[] ` cases of `coreDrift`/`extDrift` model this.
-/

/-- `s = patt ++ rest` test: returns `some rest` when `patt` is a literal
prefix of `s`, else `none`. -/
def dropLiteral : List Char → List Char → Option (List Char)
  | [], s => some s
  | _ :: _, [] => none
  | p :: ps, c :: cs => if c = p then dropLiteral ps cs else none

/-- Global leftmost non-overlapping replacement of the literal `patt` by
`repl` — the effect of `sed 's|patt|repl|g'` for a newline-free literal
pattern.  Structural recursion on a fuel that starts at the string length;
every step consumes at least one character, so for a non-empty pattern the
`0` fallback is never reached from `sedSubst`. -/
def sedSubstAux (patt repl : List Char) : Nat → List Char → List Char
  | _, [] => []
  | 0, s => s
  | fuel + 1, c :: rest =>
    match dropLiteral patt (c :: rest) with
    | some remainder => repl ++ sedSubstAux patt repl fuel remainder
    | none => c :: sedSubstAux patt repl fuel rest

/-- Run `sedSubstAux` with enough fuel for the whole input. -/
def sedSubst (patt repl s : List Char) : List Char :=
  sedSubstAux patt repl s.length s

/-- `normalize_imports` from `sync-check.sh`:
`sed 's|from "\.\./storage/api/plugin-storage\.js"|from "./storage.js"|g'`,
i.e. a global replacement of the literal import path.  The pattern
contains no newline, so the line-by-line `sed` substitution coincides with
a global replacement over the whole content. -/
def normalize_imports (s : String) : String :=
  String.mk (sedSubst "from \"../storage/api/plugin-storage.js\"".data
    "from \"./storage.js\"".data s.data)

/-- First loop of the script: for every `*.ts` file in `CORE_DIR`, report a
drift message if the file is missing from `EXT_DIR` or if the package copy
differs from the normalized core copy.  With an empty `CORE_DIR` the glob
stays unexpanded: the loop runs once with `base = "*.ts"`, the quoted
`[ ! -f "$EXT_DIR/$base" ]` test looks up that literal name, and on a hit
`diff` compares the package file against the empty output of the failed
process substitution (`normalize_imports < "$CORE_DIR/*.ts"` reads a
non-existent file). -/
def coreDrift (core ext : List (String × String)) : List String :=
  match core with
  | [] =>
    match List.lookup "*.ts" ext with
    | none => ["DRIFT: *.ts exists in core but not in plugin-types"]
    | some e =>
      if "" = e then []
      else ["DRIFT: *.ts differs between core and plugin-types"]
  | p :: rest =>
    (p :: rest).filterMap (fun q =>
      match List.lookup q.1 ext with
      | none => some ("DRIFT: " ++ q.1 ++ " exists in core but not in plugin-types")
      | some e =>
        if normalize_imports q.2 = e then none
        else some ("DRIFT: " ++ q.1 ++ " differs between core and plugin-types"))

/-- Second block of the script: when the core storage source
`plugin-storage.ts` exists, compare it byte-for-byte (no normalization)
against the package's `storage.ts`; when it does not exist the block is
skipped and produces no drift message. -/
def storageDrift (ext : List (String × String)) (storageSrc : Option String) :
    List String :=
  match storageSrc with
  | none => []
  | some s =>
    match List.lookup "storage.ts" ext with
    | none => ["DRIFT: storage.ts missing from plugin-types"]
    | some e =>
      if s = e then []
      else ["DRIFT: storage.ts differs from core plugin-storage.ts"]

/-- The script's `WARNING` output: emitted exactly when the core storage
source file does not exist. -/
def warningMessages (storageSrc : Option String) : List String :=
  match storageSrc with
  | none => ["WARNING: Core storage source not found — skipping storage.ts check"]
  | some _ => []

/-- Third loop of the script: every `*.ts` file in `EXT_DIR` other than
`storage.ts` must exist in `CORE_DIR`.  With an empty `EXT_DIR` the glob
stays unexpanded: the loop runs once with `base = "*.ts"` (which is not
`storage.ts`), and the quoted `[ ! -f "$CORE_DIR/$base" ]` test looks up
that literal name in the core tree. -/
def extDrift (core ext : List (String × String)) : List String :=
  match ext with
  | [] =>
    match List.lookup "*.ts" core with
    | none => ["DRIFT: *.ts exists in plugin-types but not in core"]
    | some _ => []
  | p :: rest =>
    (p :: rest).filterMap (fun q =>
      if q.1 = "storage.ts" then none
      else if (List.lookup q.1 core).isSome then none
      else some ("DRIFT: " ++ q.1 ++ " exists in plugin-types but not in core"))

/-- All drift messages printed by one invocation of the script, in order.
The script sets `DRIFT=1` exactly when it prints such a message. -/
def driftMessages (core ext : List (String × String)) (storageSrc : Option String) :
    List String :=
  coreDrift core ext ++ storageDrift ext storageSrc ++ extDrift core ext

/-- The script's exit status (for an existing core directory): `0` when no
drift message was printed, `1` otherwise. -/
def syncCheckExit (core ext : List (String × String)) (storageSrc : Option String) :
    Nat :=
  if driftMessages core ext storageSrc = [] then 0 else 1

/-- The in-sync relation exactly as claim C1 words it: after normalizing
the one known import-path difference, every TypeScript declaration file
present in either tree has a byte-identical counterpart in the other tree,
with `storage.ts` compared against the core tree's `plugin-storage.ts`
(so `storage.ts` and `plugin-storage.ts` are each other's counterparts and
must both be present or both absent). -/
def specInSyncClaim (core ext : List (String × String)) (storageSrc : Option String) :
    Bool :=
  core.all (fun p => List.lookup p.1 ext = some (normalize_imports p.2)) &&
  ext.all (fun p => p.1 = "storage.ts" || (List.lookup p.1 core).isSome) &&
  (match List.lookup "storage.ts" ext, storageSrc with
   | some e, some s => e = normalize_imports s
   | none, none => true
   | _, _ => false)

/-- The in-sync relation the script actually decides: core files must have
normalization-identical package counterparts, package files other than
`storage.ts` must exist in core, and — only when the core storage source
exists — `storage.ts` must be byte-identical (without normalization) to
`plugin-storage.ts`.  When the core storage source is missing the
`storage.ts` comparison is skipped. -/
def specInSyncAmended (core ext : List (String × String))
    (storageSrc : Option String) : Bool :=
  core.all (fun p => List.lookup p.1 ext = some (normalize_imports p.2)) &&
  ext.all (fun p => p.1 = "storage.ts" || (List.lookup p.1 core).isSome) &&
  (match storageSrc with
   | some s => List.lookup "storage.ts" ext = some s
   | none => true)

theorem coreDrift_eq_nil (core ext : List (String × String)) (hc : core ≠ []) :
    coreDrift core ext = [] ↔
      core.all (fun p => List.lookup p.1 ext = some (normalize_imports p.2)) = true := by
  obtain ⟨q, rest, rfl⟩ : ∃ q rest, core = q :: rest := by
    cases core with
    | nil => exact absurd rfl hc
    | cons q rest => exact ⟨q, rest, rfl⟩
  rw [coreDrift, List.filterMap_eq_nil_iff, List.all_eq_true]
  constructor
  · intro h p hp
    have := h p hp
    revert this
    cases hlk : List.lookup p.1 ext with
    | none => simp
    | some e =>
      simp only [decide_eq_true_eq]
      intro h'
      by_cases he : normalize_imports p.2 = e
      · rw [he]
      · simp [he] at h'
  · intro h p hp
    have := h p hp
    cases hlk : List.lookup p.1 ext with
    | none => rw [hlk] at this; simp at this
    | some e =>
      rw [hlk] at this
      simp only [decide_eq_true_eq, Option.some.injEq] at this
      simp [hlk, this]

theorem extDrift_eq_nil (core ext : List (String × String)) (he : ext ≠ []) :
    extDrift core ext = [] ↔
      ext.all (fun p => p.1 = "storage.ts" || (List.lookup p.1 core).isSome) = true := by
  obtain ⟨q, rest, rfl⟩ : ∃ q rest, ext = q :: rest := by
    cases ext with
    | nil => exact absurd rfl he
    | cons q rest => exact ⟨q, rest, rfl⟩
  rw [extDrift, List.filterMap_eq_nil_iff, List.all_eq_true]
  constructor
  · intro h p hp
    have := h p hp
    revert this
    by_cases h1 : p.1 = "storage.ts"
    · simp [h1]
    · simp only [h1, if_false]
      cases h2 : (List.lookup p.1 core).isSome with
      | true => simp
      | false => simp
  · intro h p hp
    have := h p hp
    by_cases h1 : p.1 = "storage.ts"
    · simp [h1]
    · simp only [h1, decide_False, Bool.false_or] at this
      simp [h1, this]

theorem storageDrift_none (ext : List (String × String)) :
    storageDrift ext none = [] := rfl

theorem storageDrift_eq_nil (ext : List (String × String)) (s : String) :
    storageDrift ext (some s) = [] ↔ List.lookup "storage.ts" ext = some s := by
  rw [storageDrift]
  cases hlk : List.lookup "storage.ts" ext with
  | none => simp
  | some e =>
    by_cases he : s = e
    · simp [he]
    · simp [he, Ne.symm he]

theorem syncCheckExit_eq_zero (core ext : List (String × String))
    (storageSrc : Option String) :
    syncCheckExit core ext storageSrc = 0 ↔
      coreDrift core ext = [] ∧ storageDrift ext storageSrc = [] ∧
        extDrift core ext = [] := by
  rw [syncCheckExit, driftMessages]
  constructor
  · intro h0
    by_cases h : coreDrift core ext ++ storageDrift ext storageSrc ++ extDrift core ext = []
    · simp only [List.append_eq_nil] at h
      exact ⟨h.1.1, h.1.2, h.2⟩
    · rw [if_neg h] at h0
      exact absurd h0 one_ne_zero
  · intro h
    obtain ⟨h1, h2, h3⟩ := h
    rw [h1, h2, h3]
    rfl

/-- Claim C1, counterexample: with an existing core directory whose tree
holds one `plugin.ts` matched by the package tree, a package `storage.ts`
present, and the core's `plugin-storage.ts` absent, the script exits 0
although `storage.ts` has no counterpart (the `plugin-storage.ts` it is
compared against does not exist), so the claimed equivalence between exit
status 0 and normalized byte-identity of every file present in either
tree fails. -/
theorem sync_check_exit_zero_not_in_sync :
    syncCheckExit [("plugin.ts", "P")]
      [("plugin.ts", "P"), ("storage.ts", "X")] none = 0 ∧
    specInSyncClaim [("plugin.ts", "P")]
      [("plugin.ts", "P"), ("storage.ts", "X")] none = false := by
  constructor <;> decide

/-- Claim C1 (amended): for every invocation with an existing core
directory in which both trees hold at least one `*.ts` file, the script
exits 0 iff every core `*.ts` file has a counterpart in the package tree
byte-identical to its import-normalized content, every package `*.ts`
file other than `storage.ts` exists in the core tree, and — provided the
core storage source `plugin-storage.ts` exists — the package's
`storage.ts` is byte-identical to it without normalization; when
`plugin-storage.ts` is missing, the `storage.ts` comparison is skipped.
Otherwise the script reports each drifting or missing file and exits
nonzero.  When a tree holds no `*.ts` file, the unexpanded glob makes the
script report the literal `*.ts` as missing from the other tree and exit
nonzero (unless the other tree holds a file literally named `*.ts`). -/
theorem sync_check_exit_zero_iff_in_sync (core ext : List (String × String))
    (storageSrc : Option String) (hc : core ≠ []) (he : ext ≠ []) :
    ((syncCheckExit core ext storageSrc = 0 ↔
      specInSyncAmended core ext storageSrc = true) ∧
    (syncCheckExit core ext storageSrc ≠ 0 ↔
      driftMessages core ext storageSrc ≠ [])) ∧
    (∀ ext₂ : List (String × String), ∀ src₂ : Option String,
      List.lookup "*.ts" ext₂ = none → syncCheckExit [] ext₂ src₂ ≠ 0) ∧
    (∀ core₂ : List (String × String), ∀ src₂ : Option String,
      List.lookup "*.ts" core₂ = none → syncCheckExit core₂ [] src₂ ≠ 0) := by
  refine ⟨⟨?_, ?_⟩, ?_, ?_⟩
  · rw [syncCheckExit_eq_zero, coreDrift_eq_nil core ext hc,
      extDrift_eq_nil core ext he, specInSyncAmended.eq_def]
    cases storageSrc with
    | none =>
      rw [storageDrift_none]
      simp only [Bool.and_eq_true, Bool.and_true]
      tauto
    | some s =>
      rw [storageDrift_eq_nil]
      simp only [Bool.and_eq_true, decide_eq_true_eq]
      tauto
  · rw [syncCheckExit]
    by_cases h : driftMessages core ext storageSrc = [] <;> simp [h]
  · intro ext₂ src₂ hlk
    rw [syncCheckExit]
    have hcd : coreDrift [] ext₂ =
        ["DRIFT: *.ts exists in core but not in plugin-types"] := by
      rw [coreDrift, hlk]
    simp [driftMessages, hcd]
  · intro core₂ src₂ hlk
    rw [syncCheckExit]
    have hed : extDrift core₂ [] =
        ["DRIFT: *.ts exists in plugin-types but not in core"] := by
      rw [extDrift, hlk]
    simp [driftMessages, hed]

/-- Witness for the amended claim C1 at concrete trees: in-sync non-empty
trees exit 0, and each empty-tree invocation exits nonzero via the
literal-glob drift line. -/
theorem sync_check_exit_zero_iff_in_sync_witness :
    (syncCheckExit [("plugin.ts", "P")] [("plugin.ts", "P")] none = 0 ↔
      specInSyncAmended [("plugin.ts", "P")] [("plugin.ts", "P")] none = true) ∧
    syncCheckExit [] [("plugin.ts", "Q")] none ≠ 0 ∧
    syncCheckExit [("plugin.ts", "Q")] [] none ≠ 0 :=
  ⟨((sync_check_exit_zero_iff_in_sync [("plugin.ts", "P")] [("plugin.ts", "P")]
      none (by decide) (by decide)).1).1,
   (sync_check_exit_zero_iff_in_sync [("plugin.ts", "P")] [("plugin.ts", "P")]
      none (by decide) (by decide)).2.1 [("plugin.ts", "Q")] none (by decide),
   (sync_check_exit_zero_iff_in_sync [("plugin.ts", "P")] [("plugin.ts", "P")]
      none (by decide) (by decide)).2.2 [("plugin.ts", "Q")] none (by decide)⟩

/-- Claim C10: when the core storage source `plugin-storage.ts` does not
exist at its expected path, the script prints the WARNING, produces no
storage drift message, and its exit status is decided by the other two
checks alone — in particular it does not depend on the content of the
package's `storage.ts`, so the script can exit 0 (as in the final
conjunct, whatever `storage.ts` holds) even when `storage.ts` has drifted
from the core's copy. -/
theorem sync_check_skips_storage_when_core_source_missing
    (core ext : List (String × String)) (v : String) :
    warningMessages none =
      ["WARNING: Core storage source not found — skipping storage.ts check"] ∧
    storageDrift ext none = [] ∧
    (syncCheckExit core ext none = 0 ↔
      coreDrift core ext = [] ∧ extDrift core ext = []) ∧
    syncCheckExit [("plugin.ts", "P")]
      [("plugin.ts", "P"), ("storage.ts", v)] none = 0 := by
  refine ⟨rfl, rfl, ?_, ?_⟩
  · rw [syncCheckExit_eq_zero]
    simp [storageDrift]
  · rfl

/-! ## The two embedded copies of the storage declarations in `src/storage.ts`

`src/storage.ts` contains two copies of the storage declarations: the
package copy (`Repository<T>`, `StorageApi` at lines 51–66 / 106–114) and
the core runtime's copy sourced from `plugin-storage.ts` (lines 202–277 /
324–377).  The differences claim C9 is about are declaration-level facts:
the parameter type of `findById`, the generic parameters of `Repository`,
and the method sets of `StorageApi`.  We embed those shapes as data. -/

/-- How a repository declaration types its primary-key parameter
(`findById`/`update`/`delete`/`exists`): the package copy fixes it to the
TS `string` type, the core copy uses the generic `PKType = T[PK]`. -/
inductive IdParamType where
  | stringType
  | primaryKeyType
deriving DecidableEq

/-- Shape of one `Repository` interface declaration: how many generic
parameters it takes, how the by-id accessors type their parameter, and the
declared method names in order. -/
structure RepositoryDecl where
  typeParams : Nat
  idParam : IdParamType
  methods : List String
deriving DecidableEq

/-- The package copy of `Repository<T>` (`src/storage.ts`, first copy):
one generic parameter, `findById(id: string)`. -/
def pkgRepository : RepositoryDecl :=
  { typeParams := 1
    idParam := .stringType
    methods := ["insert", "insertMany", "findById", "findFirst", "findMany",
                "update", "updateMany", "delete", "deleteMany", "count",
                "exists", "query", "raw", "transaction"] }

/-- The core copy of `Repository<T, PK = "id", PKType = T[PK]>`
(`src/storage.ts`, second copy, from `plugin-storage.ts`): three generic
parameters, `findById(id: PKType)`. -/
def coreRepository : RepositoryDecl :=
  { typeParams := 3
    idParam := .primaryKeyType
    methods := ["insert", "insertMany", "findById", "findFirst", "findMany",
                "update", "updateMany", "delete", "deleteMany", "count",
                "exists", "query", "raw", "transaction"] }

/-- Shape of one `StorageApi` interface declaration: its readonly fields
and method names in declaration order. -/
structure StorageApiDecl where
  readonlyFields : List String
  methods : List String
deriving DecidableEq

/-- The package copy of `StorageApi` (`src/storage.ts`, first copy). -/
def pkgStorageApi : StorageApiDecl :=
  { readonlyFields := ["driver"]
    methods := ["register", "getRepository", "isRegistered", "getVersion",
                "raw", "transaction"] }

/-- The core copy of `StorageApi` (`src/storage.ts`, second copy, from
`plugin-storage.ts`): additionally declares `run` and `close`. -/
def coreStorageApi : StorageApiDecl :=
  { readonlyFields := ["driver"]
    methods := ["register", "getRepository", "isRegistered", "getVersion",
                "raw", "run", "transaction", "close"] }

/-- Claim C9: the two embedded copies of the storage declarations are not
equivalent — the package copy types `findById` over `string` and its
`StorageApi` lacks `run()` and `close()`, while the core copy
parameterizes `Repository` over the primary-key field and type and
declares `StorageApi.run()` and `StorageApi.close()`; consequently a
textual diff (as `storageDrift` performs on differing contents, here the
two copies' differing `findById` declaration lines) reports drift. -/
theorem storage_declaration_copies_differ :
    pkgRepository ≠ coreRepository ∧
    pkgRepository.idParam = IdParamType.stringType ∧
    coreRepository.idParam = IdParamType.primaryKeyType ∧
    pkgRepository.typeParams = 1 ∧ coreRepository.typeParams = 3 ∧
    pkgStorageApi ≠ coreStorageApi ∧
    "run" ∈ coreStorageApi.methods ∧ "run" ∉ pkgStorageApi.methods ∧
    "close" ∈ coreStorageApi.methods ∧ "close" ∉ pkgStorageApi.methods ∧
    storageDrift
      [("storage.ts", "  findById(id: string): Promise<T | null>;")]
      (some "  findById(id: PKType): Promise<T | null>;") =
      ["DRIFT: storage.ts differs from core plugin-storage.ts"] := by
  refine ⟨?_, rfl, rfl, rfl, rfl, ?_, ?_, ?_, ?_, ?_, rfl⟩ <;> decide

/-! ## Config shapes (`src/config.ts`)

TS `unknown`-typed values are modelled by an opaque `String` throughout. -/

/-- `SetupFlowType` from `src/config.ts`. -/
inductive SetupFlowType where
  | paste
  | oauth
  | qr
  | interactive
  | noInput
deriving DecidableEq

/-- `ConfigField.type` union from `src/config.ts`. -/
inductive ConfigFieldType where
  | text
  | password
  | select
  | checkbox
  | number
  | array
  | boolean
  | object
  | textarea
deriving DecidableEq

/-- `ConfigField` from `src/config.ts`; recursive through `items` (array
item schema) and `fields` (nested object fields).  `default` is typed
`unknown` in TS and modelled as an opaque `String`. -/
inductive ConfigField : Type where
  | mk
    (name : String)
    (ftype : ConfigFieldType)
    (label : String)
    (placeholder : Option String)
    (required : Option Bool)
    (defaultVal : Option String)
    (options : Option (List (String × String)))
    (description : Option String)
    (items : Option ConfigField)
    (fields : Option (List ConfigField))
    (setupFlow : Option SetupFlowType)
    (oauthProvider : Option String)
    (pattern : Option String)
    (patternError : Option String)
    (secret : Option Bool)

/-- `ConfigSchema` from `src/config.ts`. -/
structure ConfigSchema where
  title : String
  description : Option String
  fields : List ConfigField

/-! ## Manifest shapes (`src/manifest.ts`) -/

/-- `InstallMethod` from `src/manifest.ts`. -/
inductive InstallMethod where
  | brew (formula : String) (bins : Option (List String)) (label : Option String)
  | apt (pack : String) (bins : Option (List String)) (label : Option String)
  | pip (pack : String) (bins : Option (List String)) (label : Option String)
  | npm (pack : String) (bins : Option (List String)) (label : Option String)
  | docker (image : String) (tag : Option String) (label : Option String)
  | script (url : String) (label : Option String)
  | manual (instructions : String) (label : Option String)

/-- `NetworkRequirements` from `src/manifest.ts`. -/
structure NetworkRequirements where
  outbound : Option Bool
  inbound : Option Bool
  p2p : Option Bool
  ports : Option (List Nat)
  hosts : Option (List String)

/-- `StorageRequirements` from `src/manifest.ts`. -/
structure StorageRequirements where
  persistent : Option Bool
  estimatedSize : Option String

/-- The `os` entries of `PluginRequirements`. -/
inductive OsName where
  | linux
  | darwin
  | win32
deriving DecidableEq

/-- `PluginRequirements` from `src/manifest.ts`. -/
structure PluginRequirements where
  bins : Option (List String)
  env : Option (List String)
  docker : Option (List String)
  config : Option (List String)
  os : Option (List OsName)
  node : Option String
  network : Option NetworkRequirements
  services : Option (List String)
  storage : Option StorageRequirements

/-- `ManifestProviderEntry` from `src/manifest.ts`: the `id` doc comment
reads "Unique provider identifier within this plugin". -/
structure ManifestProviderEntry where
  type : String
  id : String
  displayName : String
  configSchema : Option ConfigSchema

/-- `SetupStep` from `src/manifest.ts`. -/
structure SetupStep where
  id : String
  title : String
  description : String
  fields : Option ConfigSchema
  optional : Option Bool

/-- `PluginLifecycle.shutdownBehavior` union from `src/manifest.ts`. -/
inductive ShutdownBehavior where
  | graceful
  | immediate
  | drain
deriving DecidableEq

/-- `PluginLifecycle` from `src/manifest.ts`.  Doc comments state the
defaults: `healthIntervalMs` 30000, `shutdownBehavior` "graceful",
`shutdownTimeoutMs` 10000. -/
structure PluginLifecycle where
  healthEndpoint : Option String
  healthIntervalMs : Option Nat
  hotReload : Option Bool
  shutdownBehavior : Option ShutdownBehavior
  shutdownTimeoutMs : Option Nat

/-- The `provides` block of `PluginManifest` from `src/manifest.ts`. -/
structure ProvidesBlock where
  capabilities : List ManifestProviderEntry

/-- `PluginManifest` from `src/manifest.ts`.  `PluginCapability` and
`PluginCategory` are opaque strings in the source. -/
structure PluginManifest where
  name : String
  version : String
  description : String
  author : Option String
  license : Option String
  homepage : Option String
  repository : Option String
  capabilities : List String
  requires : Option PluginRequirements
  provides : Option ProvidesBlock
  install : Option (List InstallMethod)
  setup : Option (List SetupStep)
  configSchema : Option ConfigSchema
  category : Option String
  tags : Option (List String)
  icon : Option String
  minCoreVersion : Option String
  dependencies : Option (List String)
  conflicts : Option (List String)
  lifecycle : Option PluginLifecycle

/-- Modelled from the spec: the manifest validator is host-side and not in
this repository.  The spec's invariant for a valid `PluginManifest` is
that `capabilities` is a non-empty list of opaque strings and that
`provides.capabilities` entries have unique provider identifiers within
the plugin (`src/manifest.ts` documents `ManifestProviderEntry.id` as
"Unique provider identifier within this plugin"). -/
def manifestValid (m : PluginManifest) : Bool :=
  !m.capabilities.isEmpty &&
  (match m.provides with
   | some pr => (pr.capabilities.map (fun e => e.id)).Nodup
   | none => true)

/-- Claim C8: for every valid `PluginManifest`, `capabilities` is
non-empty, and the entries of `provides.capabilities` have
pairwise-distinct `(type, id)` pairs within that plugin (this follows
from the declared within-plugin uniqueness of provider ids). -/
theorem manifest_valid_invariants (m : PluginManifest)
    (h : manifestValid m = true) :
    m.capabilities ≠ [] ∧
    ∀ pr, m.provides = some pr →
      pr.capabilities.Pairwise
        (fun a b => (a.type, a.id) ≠ (b.type, b.id)) := by
  rw [manifestValid, Bool.and_eq_true] at h
  constructor
  · intro hnil
    rw [hnil] at h
    simp at h
  · intro pr hpr
    rw [hpr] at h
    have hnd : (pr.capabilities.map (fun e => e.id)).Nodup := by
      have := h.2
      simpa using this
    have hp : pr.capabilities.Pairwise (fun a b => a.id ≠ b.id) :=
      List.pairwise_map.mp hnd
    refine hp.imp ?_
    intro a b hab hcontra
    exact hab (congrArg Prod.snd hcontra)

/-- A concrete valid manifest used to instantiate `manifest_valid_invariants`. -/
def sampleManifest : PluginManifest :=
  { name := "@wopr-network/plugin-voice"
    version := "1.0.0"
    description := "voice plugin"
    author := none
    license := some "MIT"
    homepage := none
    repository := none
    capabilities := ["tts", "stt"]
    requires := none
    provides := some ⟨[⟨"tts", "chatterbox-local", "Chatterbox TTS", none⟩,
                       ⟨"stt", "whisper-local", "Local Whisper", none⟩]⟩
    install := none
    setup := none
    configSchema := none
    category := some "voice"
    tags := none
    icon := none
    minCoreVersion := none
    dependencies := none
    conflicts := none
    lifecycle := none }

/-- Witness for claim C8 at `sampleManifest`. -/
theorem manifest_valid_invariants_witness :
    sampleManifest.capabilities ≠ [] ∧
    ∀ pr, sampleManifest.provides = some pr →
      pr.capabilities.Pairwise
        (fun a b => (a.type, a.id) ≠ (b.type, b.id)) :=
  manifest_valid_invariants sampleManifest (by decide)

/-! ## Plugin shapes (`src/plugin.ts`) and the host shutdown sequence

The lifecycle callbacks are optional function-valued fields in TS; they
are modelled as `Option`-typed opaque functions, and the host dispatches
on their presence (`isSome`). -/

/-- `PluginCommand` from `src/plugin.ts`; the handler is opaque. -/
structure PluginCommand where
  name : String
  description : String
  usage : Option String
  handler : Unit → Unit

/-- `WOPRPlugin` from `src/plugin.ts`: identity, optional manifest,
optional lifecycle callbacks (modelled as opaque functions whose presence
is what the host dispatches on), optional CLI commands. -/
structure WOPRPlugin where
  name : String
  version : String
  description : Option String
  manifest : Option PluginManifest
  init : Option (Unit → Unit)
  shutdown : Option (Unit → Unit)
  onActivate : Option (Unit → Unit)
  onDeactivate : Option (Unit → Unit)
  onDrain : Option (Unit → Unit)
  commands : Option (List PluginCommand)

/-- The shutdown behavior a plugin's manifest declares, falling back to
the documented default `"graceful"` (`src/manifest.ts`:
`- "graceful" (default)`). -/
def effectiveShutdownBehavior (p : WOPRPlugin) : ShutdownBehavior :=
  match p.manifest with
  | none => .graceful
  | some m =>
    match m.lifecycle with
    | none => .graceful
    | some lc =>
      match lc.shutdownBehavior with
      | none => .graceful
      | some b => b

/-- One observable lifecycle callback event in the host's shutdown
sequence.  `onDrainEnd timedOut` marks the completion of the `onDrain`
call: `timedOut = true` when the host force-proceeded after
`shutdownTimeoutMs` rather than seeing the call resolve. -/
inductive LifecycleCall where
  | onDrainStart
  | onDrainEnd (timedOut : Bool)
  | onDeactivateCall
  | shutdownCall
deriving DecidableEq

/-- Modelled from the spec: the host runtime's shutdown sequence is not in
this repository.  Per the spec's lifecycle state machine, on a shutdown
request with `shutdownBehavior = "drain"` the host calls `onDrain` (if
present) and that call completes — or is force-timed-out after
`shutdownTimeoutMs` (`drainFinishesInTime = false`) — before the host
calls `onDeactivate` (if present) and then `shutdown` (if present). -/
def hostShutdownSeq (p : WOPRPlugin) (drainFinishesInTime : Bool) :
    List LifecycleCall :=
  (if effectiveShutdownBehavior p = .drain ∧ p.onDrain.isSome then
    [.onDrainStart, .onDrainEnd (!drainFinishesInTime)]
  else []) ++
  (if p.onDeactivate.isSome then [.onDeactivateCall] else []) ++
  (if p.shutdown.isSome then [.shutdownCall] else [])

/-- Claim C7: for every plugin whose manifest declares `shutdownBehavior`
`"drain"` and which implements `onDrain`, the host's shutdown sequence
contains the completion (or forced timeout) of the `onDrain` call strictly
before any `onDeactivate` or `shutdown` call; and for every plugin and
behavior, whenever both `onDeactivate` and `shutdown` are present,
`onDeactivate` is called before `shutdown`. -/
theorem drain_completes_before_deactivate_and_shutdown (p : WOPRPlugin)
    (t : Bool) (hb : effectiveShutdownBehavior p = .drain)
    (hd : p.onDrain.isSome = true) :
    LifecycleCall.onDrainEnd (!t) ∈ hostShutdownSeq p t ∧
    (p.onDeactivate.isSome = true →
      (hostShutdownSeq p t).indexOf (LifecycleCall.onDrainEnd (!t)) <
        (hostShutdownSeq p t).indexOf LifecycleCall.onDeactivateCall) ∧
    (p.shutdown.isSome = true →
      (hostShutdownSeq p t).indexOf (LifecycleCall.onDrainEnd (!t)) <
        (hostShutdownSeq p t).indexOf LifecycleCall.shutdownCall) ∧
    (∀ q : WOPRPlugin, ∀ u : Bool, q.onDeactivate.isSome = true →
      q.shutdown.isSome = true →
      (hostShutdownSeq q u).indexOf LifecycleCall.onDeactivateCall <
        (hostShutdownSeq q u).indexOf LifecycleCall.shutdownCall) := by
  refine ⟨?_, ?_, ?_, ?_⟩
  · rw [hostShutdownSeq, if_pos ⟨hb, hd⟩]
    cases t <;> simp
  · intro hde
    rw [hostShutdownSeq, if_pos ⟨hb, hd⟩, if_pos hde]
    cases hs : p.shutdown.isSome <;> cases t <;> simp
  · intro hs
    rw [hostShutdownSeq, if_pos ⟨hb, hd⟩, if_pos hs]
    cases hde : p.onDeactivate.isSome <;> cases t <;> simp
  · intro q u hde hs
    rw [hostShutdownSeq, if_pos hde, if_pos hs]
    by_cases hq : effectiveShutdownBehavior q = .drain ∧ q.onDrain.isSome
    · rw [if_pos hq]
      cases u <;> decide
    · rw [if_neg hq]
      decide

/-- A concrete drain-declaring plugin used to instantiate claim C7. -/
def samplePlugin : WOPRPlugin :=
  { name := "sample"
    version := "0.1.0"
    description := none
    manifest := some { sampleManifest with
      lifecycle := some ⟨none, none, none, some .drain, some 5000⟩ }
    init := some (fun _ => ())
    shutdown := some (fun _ => ())
    onActivate := none
    onDeactivate := some (fun _ => ())
    onDrain := some (fun _ => ())
    commands := none }

/-- Witness for claim C7 at `samplePlugin`. -/
theorem drain_completes_before_deactivate_and_shutdown_witness :
    LifecycleCall.onDrainEnd (!true) ∈ hostShutdownSeq samplePlugin true ∧
    (samplePlugin.onDeactivate.isSome = true →
      (hostShutdownSeq samplePlugin true).indexOf
          (LifecycleCall.onDrainEnd (!true)) <
        (hostShutdownSeq samplePlugin true).indexOf
          LifecycleCall.onDeactivateCall) ∧
    (samplePlugin.shutdown.isSome = true →
      (hostShutdownSeq samplePlugin true).indexOf
          (LifecycleCall.onDrainEnd (!true)) <
        (hostShutdownSeq samplePlugin true).indexOf
          LifecycleCall.shutdownCall) ∧
    (∀ q : WOPRPlugin, ∀ u : Bool, q.onDeactivate.isSome = true →
      q.shutdown.isSome = true →
      (hostShutdownSeq q u).indexOf LifecycleCall.onDeactivateCall <
        (hostShutdownSeq q u).indexOf LifecycleCall.shutdownCall) :=
  drain_completes_before_deactivate_and_shutdown samplePlugin true rfl rfl

/-! ## The `Repository` behavioural contract (claim C2)

The storage engine implementing `Repository<T>` lives in the core runtime
repository, not here; only the interface declaration is under `src/`.  The
behaviour is therefore modelled from the spec.  A table is a list of
`(primary key, record)` rows; records are an arbitrary type `α`, filters
are predicates `α → Bool` (the declared `Filter<T>` shape), and an update
payload `Partial<T>` acts as a patch function `α → α`. -/

/-- The not-found failure of the repository error taxonomy. -/
inductive RepoError where
  | notFound
deriving DecidableEq

/-- Modelled from the spec: `findById` returns null (not an error) on
miss. -/
def findById (rows : List (String × α)) (id : String) : Option α :=
  List.lookup id rows

/-- Modelled from the spec: `delete(id)` removes the row when present and
returns whether a row was deleted; on a missing id it resolves to
`false`. -/
def deleteById [DecidableEq α] (rows : List (String × α)) (id : String) :
    List (String × α) × Bool :=
  match List.lookup id rows with
  | none => (rows, false)
  | some _ => (rows.filter (fun p => !(p.1 = id : Bool)), true)

/-- Modelled from the spec: `update(id, data)` patches the row when
present and returns the updated record; on a missing id it fails with a
not-found error. -/
def updateById (rows : List (String × α)) (id : String) (patch : α → α) :
    Except RepoError (List (String × α) × α) :=
  match List.lookup id rows with
  | none => .error .notFound
  | some r =>
    .ok (rows.map (fun p => if p.1 = id then (p.1, patch p.2) else p), patch r)

/-- Modelled from the spec: `updateMany(filter, data)` patches every row
matching the filter and resolves to the number of affected rows. -/
def updateManyF (rows : List (String × α)) (flt : α → Bool) (patch : α → α) :
    List (String × α) × Nat :=
  match rows with
  | [] => ([], 0)
  | p :: rest =>
    let (rest', n) := updateManyF rest flt patch
    if flt p.2 then ((p.1, patch p.2) :: rest', n + 1) else (p :: rest', n)

/-- Modelled from the spec: `deleteMany(filter)` removes every row
matching the filter and resolves to the number of affected rows. -/
def deleteManyF (rows : List (String × α)) (flt : α → Bool) :
    List (String × α) × Nat :=
  match rows with
  | [] => ([], 0)
  | p :: rest =>
    let (rest', n) := deleteManyF rest flt
    if flt p.2 then (rest', n + 1) else (p :: rest', n)

theorem updateManyF_count (rows : List (String × α)) (flt : α → Bool)
    (patch : α → α) :
    (updateManyF rows flt patch).2 = rows.countP (fun p => flt p.2) := by
  induction rows with
  | nil => rfl
  | cons p rest ih =>
    rw [updateManyF, List.countP_cons]
    by_cases h : flt p.2 = true
    · simp only [h, if_true, ih]
    · simp only [h, if_false]
      rw [Bool.not_eq_true] at h
      simp [h, ih]

theorem deleteManyF_count (rows : List (String × α)) (flt : α → Bool) :
    (deleteManyF rows flt).2 = rows.countP (fun p => flt p.2) := by
  induction rows with
  | nil => rfl
  | cons p rest ih =>
    rw [deleteManyF, List.countP_cons]
    by_cases h : flt p.2 = true
    · simp only [h, if_true, ih]
    · simp only [h, if_false]
      rw [Bool.not_eq_true] at h
      simp [h, ih]

/-- Claim C2: for every id not present in the table, `findById` resolves
to null rather than failing, `delete` resolves to `false` (and leaves the
table unchanged), and `update` fails with a not-found error; and for every
filter, `updateMany` and `deleteMany` resolve to the number of rows the
filter matches. -/
theorem repository_miss_and_count_contract [DecidableEq α]
    (rows : List (String × α)) (id : String) (patch : α → α)
    (hmiss : List.lookup id rows = none) :
    findById rows id = none ∧
    deleteById rows id = (rows, false) ∧
    updateById rows id patch = .error .notFound ∧
    (∀ flt : α → Bool,
      (updateManyF rows flt patch).2 = rows.countP (fun p => flt p.2) ∧
      (deleteManyF rows flt).2 = rows.countP (fun p => flt p.2)) := by
  refine ⟨hmiss, ?_, ?_, ?_⟩
  · rw [deleteById, hmiss]
  · rw [updateById, hmiss]
  · intro flt
    exact ⟨updateManyF_count rows flt patch, deleteManyF_count rows flt⟩

/-- Witness for claim C2 on a concrete two-row table and an absent id. -/
theorem repository_miss_and_count_contract_witness :
    List.lookup "k3" [("k1", 10), ("k2", 20)] = (none : Option Nat) ∧
    (findById [("k1", 10), ("k2", 20)] "k3" = none ∧
     deleteById [("k1", 10), ("k2", 20)] "k3" = ([("k1", 10), ("k2", 20)], false) ∧
     updateById [("k1", 10), ("k2", 20)] "k3" (fun n => n + 1) =
       .error .notFound ∧
     (∀ flt : Nat → Bool,
       (updateManyF [("k1", 10), ("k2", 20)] flt (fun n => n + 1)).2 =
         [("k1", 10), ("k2", 20)].countP (fun p => flt p.2) ∧
       (deleteManyF [("k1", 10), ("k2", 20)] flt).2 =
         [("k1", 10), ("k2", 20)].countP (fun p => flt p.2))) :=
  ⟨by decide, repository_miss_and_count_contract
    [("k1", 10), ("k2", 20)] "k3" (fun n => n + 1) (by decide)⟩

/-! ## The `transaction(fn)` contract (claim C3)

`Repository.transaction` and `StorageApi.transaction` share one contract:
the function body performs repository/storage operations and may make
nested `transaction` calls.  The body is modelled as a syntax tree
`TxProg`: `op f k` performs one (possibly failing) storage operation `f`
and continues with `k`; `tx inner k` is a nested `transaction(inner)` call
followed by `k`. -/

/-- A transactional program over a storage state `σ`: the operations a
function passed to `transaction` performs, including nested `transaction`
calls. -/
inductive TxProg (σ : Type) : Type where
  | done : TxProg σ
  | op : (σ → Except String σ) → TxProg σ → TxProg σ
  | tx : TxProg σ → TxProg σ → TxProg σ

/-- Modelled from the spec: execution inside an open transactional scope
(the storage engine is in the core runtime, not this repository).
Operations apply to the shared in-transaction state; a nested
`transaction` call joins the existing scope — its body runs directly in
the same scope and its failure propagates, instead of opening a new scope
with its own commit/rollback. -/
def runInTx : TxProg σ → σ → Except String σ
  | .done, s => .ok s
  | .op f k, s =>
    match f s with
    | .ok s' => runInTx k s'
    | .error e => .error e
  | .tx inner k, s =>
    match runInTx inner s with
    | .ok s' => runInTx k s'
    | .error e => .error e

/-- Modelled from the spec: a top-level `transaction(fn)` call — runs the
body in a fresh scope, commits the final state on success and rolls back
to the initial state on failure.  Returns the resulting state and whether
the transaction committed. -/
def transaction (p : TxProg σ) (s : σ) : σ × Bool :=
  match runInTx p s with
  | .ok s' => (s', true)
  | .error _ => (s, false)

/-- The flat list of storage operations a transactional program performs,
erasing all nested-transaction structure. -/
def opsOf : TxProg σ → List (σ → Except String σ)
  | .done => []
  | .op f k => f :: opsOf k
  | .tx inner k => opsOf inner ++ opsOf k

/-- Sequential application of a list of storage operations, failing at the
first failing operation. -/
def applySeq : List (σ → Except String σ) → σ → Except String σ
  | [], s => .ok s
  | f :: fs, s =>
    match f s with
    | .ok s' => applySeq fs s'
    | .error e => .error e

/-- Syntactic sequencing of two transactional programs (run the first,
then the second) without introducing a nested-transaction node. -/
def seqP : TxProg σ → TxProg σ → TxProg σ
  | .done, q => q
  | .op f k, q => .op f (seqP k q)
  | .tx inner k, q => .tx inner (seqP k q)

theorem applySeq_append (fs gs : List (σ → Except String σ)) (s : σ) :
    applySeq (fs ++ gs) s =
      match applySeq fs s with
      | .ok s' => applySeq gs s'
      | .error e => .error e := by
  induction fs generalizing s with
  | nil => rfl
  | cons f fs ih =>
    rw [List.cons_append, applySeq, applySeq]
    cases f s with
    | ok s' => exact ih s'
    | error e => rfl

theorem runInTx_eq_applySeq (p : TxProg σ) (s : σ) :
    runInTx p s = applySeq (opsOf p) s := by
  induction p generalizing s with
  | done => rfl
  | op f k ih =>
    rw [runInTx, opsOf, applySeq]
    cases f s with
    | ok s' => exact ih s'
    | error e => rfl
  | tx inner k ih1 ih2 =>
    rw [runInTx, opsOf, applySeq_append]
    rw [ih1]
    cases applySeq (opsOf inner) s with
    | ok s' => exact ih2 s'
    | error e => rfl

theorem runInTx_seqP (p q : TxProg σ) (s : σ) :
    runInTx (seqP p q) s =
      match runInTx p s with
      | .ok s' => runInTx q s'
      | .error e => .error e := by
  induction p generalizing s with
  | done => rfl
  | op f k ih =>
    rw [seqP, runInTx, runInTx]
    cases f s with
    | ok s' => exact ih s'
    | error e => rfl
  | tx inner k ih1 ih2 =>
    rw [seqP, runInTx, runInTx]
    cases runInTx inner s with
    | ok s' => exact ih2 s'
    | error e => rfl

/-- Claim C3: for every function body passed to `Repository.transaction`
or `StorageApi.transaction`, the enclosed operations are atomic — when
their sequential application succeeds the transaction commits exactly that
final state, and when it fails the transaction rolls every operation back
to the initial state (including operations of nested `transaction`
bodies); and every nested `transaction` call joins the existing scope: it
behaves exactly like plain sequencing of its body, with no scope of its
own. -/
theorem transaction_atomic_nested_joins (p : TxProg σ) (s : σ) :
    (∀ s', applySeq (opsOf p) s = .ok s' → transaction p s = (s', true)) ∧
    (∀ e, applySeq (opsOf p) s = .error e → transaction p s = (s, false)) ∧
    (∀ inner k : TxProg σ,
      runInTx (.tx inner k) s = runInTx (seqP inner k) s) := by
  refine ⟨?_, ?_, ?_⟩
  · intro s' h
    rw [transaction, runInTx_eq_applySeq, h]
  · intro e h
    rw [transaction, runInTx_eq_applySeq, h]
  · intro inner k
    rw [runInTx_seqP, runInTx]

/-- Witness for claim C3: a transaction whose nested body fails rolls the
outer operation back, and a fully successful transaction commits both the
outer and the nested operations. -/
theorem transaction_atomic_nested_joins_witness :
    applySeq (opsOf (TxProg.op (fun n => .ok (n + 1))
        (.tx (.op (fun _ => .error "boom") .done) .done))) (0 : Nat) =
      .error "boom" ∧
    transaction (TxProg.op (fun n => .ok (n + 1))
        (.tx (.op (fun _ => .error "boom") .done) .done)) (0 : Nat) =
      (0, false) ∧
    applySeq (opsOf (TxProg.op (fun n => .ok (n + 1))
        (.tx (.op (fun n => .ok (n * 10)) .done) .done))) (0 : Nat) =
      .ok 10 ∧
    transaction (TxProg.op (fun n => .ok (n + 1))
        (.tx (.op (fun n => .ok (n * 10)) .done) .done)) (0 : Nat) =
      (10, true) := by
  refine ⟨rfl, ?_, rfl, ?_⟩
  · exact (transaction_atomic_nested_joins _ 0).2.1 "boom" rfl
  · exact (transaction_atomic_nested_joins _ 0).1 10 rfl

/-! ## `StorageApi.register` (claim C4)

The schema registry behind `StorageApi.register` lives in the core
runtime; its behaviour is modelled from the spec and the doc comments on
`register` ("Core creates tables if they don't exist / Runs migrations if
version changed") and `PluginSchema.migrate`. -/

/-- `TableIndex` from `src/storage.ts`. -/
structure TableIndex where
  fields : List String
  unique : Option Bool

/-- `TableSchema` from `src/storage.ts`; the Zod object is opaque to this
model. -/
structure TableSchema where
  schema : String
  primaryKey : String
  indexes : Option (List TableIndex)

/-- The storage-side registry state a plugin schema is registered into:
the version recorded per namespace, the created (namespaced) table names,
and a log of the migration invocations `(namespace, fromVersion,
toVersion)` performed so far. -/
structure StorageState where
  versions : List (String × Nat)
  tablesCreated : List String
  migrationLog : List (String × Nat × Nat)

/-- `PluginSchema` from `src/storage.ts` (core copy): namespace, schema
version, table definitions, and the optional plugin-supplied migration
function invoked with `(fromVersion, toVersion, storageHandle)`.  The TS
field `namespace` is a Lean keyword and is named `nspace` here. -/
structure PluginSchema where
  nspace : String
  version : Nat
  tables : List (String × TableSchema)
  migrate : Option (Nat → Nat → StorageState → StorageState)

/-- Record a namespace's version, replacing an existing entry in place or
appending a fresh one. -/
def setVersion (vs : List (String × Nat)) (ns : String) (v : Nat) :
    List (String × Nat) :=
  match vs with
  | [] => [(ns, v)]
  | p :: rest => if p.1 = ns then (ns, v) :: rest else p :: setVersion rest ns v

/-- Modelled from the spec: `StorageApi.register(schema)`.  A fresh
namespace gets its version recorded and its tables created (namespaced as
`namespace_table`, per the `PluginSchema.namespace` doc comment);
re-registering the same version is a no-op; registering a changed version
triggers a migration — the optional plugin-supplied `migrate` function is
invoked with `(fromVersion, toVersion, storageHandle)` — and records the
new version. -/
def register (st : StorageState) (sch : PluginSchema) : StorageState :=
  match List.lookup sch.nspace st.versions with
  | none =>
    { st with
      versions := (sch.nspace, sch.version) :: st.versions
      tablesCreated :=
        st.tablesCreated ++ sch.tables.map (fun t => sch.nspace ++ "_" ++ t.1) }
  | some v =>
    if v = sch.version then st
    else
      let st' :=
        match sch.migrate with
        | some m => m v sch.version st
        | none => st
      { st' with versions := setVersion st'.versions sch.nspace sch.version }

/-- `StorageApi.isRegistered` over the model state. -/
def isRegistered (st : StorageState) (ns : String) : Bool :=
  (List.lookup ns st.versions).isSome

/-- `StorageApi.getVersion` over the model state. -/
def getVersion (st : StorageState) (ns : String) : Option Nat :=
  List.lookup ns st.versions

theorem lookup_setVersion (vs : List (String × Nat)) (ns : String) (v : Nat) :
    List.lookup ns (setVersion vs ns v) = some v := by
  induction vs with
  | nil => simp [setVersion, List.lookup]
  | cons p rest ih =>
    rw [setVersion]
    by_cases h : p.1 = ns
    · simp [List.lookup, h]
    · have hne : (ns == p.1) = false := by
        simp only [beq_eq_false_iff_ne, ne_eq]
        exact fun hc => h hc.symm
      simp [List.lookup, h, hne, ih]

theorem lookup_register (st : StorageState) (sch : PluginSchema) :
    List.lookup sch.nspace (register st sch).versions = some sch.version := by
  rw [register]
  cases hlk : List.lookup sch.nspace st.versions with
  | none => simp [List.lookup]
  | some v =>
    by_cases hv : v = sch.version
    · simp only [hv, if_true]
      rw [hv] at hlk
      exact hlk
    · simp only [hv, if_false]
      exact lookup_setVersion _ _ _

/-- Claim C4: re-registering a `PluginSchema` with the same namespace and
version is a no-op (the storage state is unchanged, so in particular
`register (register st sch) sch = register st sch` always holds), the
recorded version after `register` is the schema's version, and
registering a changed version for an already-registered namespace
triggers a migration that invokes the plugin-supplied `migrate` function
with `(fromVersion, toVersion, storageHandle)` before recording the new
version. -/
theorem register_idempotent_version_bump_migrates (st : StorageState)
    (sch : PluginSchema) :
    (List.lookup sch.nspace st.versions = some sch.version →
      register st sch = st) ∧
    register (register st sch) sch = register st sch ∧
    List.lookup sch.nspace (register st sch).versions = some sch.version ∧
    (∀ v m, List.lookup sch.nspace st.versions = some v → v ≠ sch.version →
      sch.migrate = some m →
      register st sch =
        { m v sch.version st with
          versions := setVersion (m v sch.version st).versions
            sch.nspace sch.version }) := by
  refine ⟨?_, ?_, lookup_register st sch, ?_⟩
  · intro h
    rw [register, h]
    simp
  · rw [register, lookup_register st sch]
    simp
  · intro v m hlk hne hm
    rw [register, hlk, hm]
    simp [hne]

/-- Migration function used by the claim C4 witness: logs its
`(fromVersion, toVersion)` arguments into the storage handle it is
given. -/
def logMigrate : Nat → Nat → StorageState → StorageState :=
  fun f t s => { s with migrationLog := ("p2p", f, t) :: s.migrationLog }

/-- Storage state with namespace `p2p` registered at version 1. -/
def stP2p : StorageState := ⟨[("p2p", 1)], [], []⟩

/-- A version-2 schema for namespace `p2p` carrying `logMigrate`. -/
def schV2 : PluginSchema := ⟨"p2p", 2, [], some logMigrate⟩

/-- Witness for claim C4: a same-version re-registration is a no-op, a
double registration equals a single one, the version is recorded, and a
1→2 version bump invokes the `migrate` function with `(1, 2, stP2p)`. -/
theorem register_idempotent_version_bump_migrates_witness :
    register ⟨[("p2p", 2)], [], []⟩ { schV2 with migrate := none } =
      ⟨[("p2p", 2)], [], []⟩ ∧
    register (register stP2p schV2) schV2 = register stP2p schV2 ∧
    List.lookup "p2p" (register stP2p schV2).versions = some 2 ∧
    register stP2p schV2 =
      { logMigrate 1 2 stP2p with
        versions := setVersion (logMigrate 1 2 stP2p).versions "p2p" 2 } :=
  ⟨(register_idempotent_version_bump_migrates ⟨[("p2p", 2)], [], []⟩
      { schV2 with migrate := none }).1 (by decide),
   (register_idempotent_version_bump_migrates stP2p schV2).2.1,
   (register_idempotent_version_bump_migrates stP2p schV2).2.2.1,
   (register_idempotent_version_bump_migrates stP2p schV2).2.2.2 1 logMigrate
     (by decide) (by decide) rfl⟩

/-! ## The event bus `emit` contract (claim C5)

`WOPREventBus` is declared in `src/events.ts`; the bus implementation is
in the core runtime.  The handlers registered for one event are modelled
as a list (in registration order) of `(plugin name, handler)` pairs; a
handler acts on a shared state `σ` and optionally throws (its `Option
String` component).  Payloads are fixed by the event, so they are folded
into the handler functions. -/

/-- `PluginErrorEvent` from `src/events.ts` (`error: Error` is modelled as
its message string). -/
structure PluginErrorEvent where
  plugin : String
  error : String
  context : Option String
deriving DecidableEq

/-- Modelled from the spec: `emit` invokes every registered handler for
the event in registration order; a handler's thrown failure is caught,
turned into a `plugin:error` event attributed to that plugin, and does not
stop the remaining handlers; `emit` itself returns normally (its result
type carries the error events rather than a rejection). -/
def emitAll (handlers : List (String × (σ → σ × Option String))) (s : σ) :
    σ × List PluginErrorEvent :=
  match handlers with
  | [] => (s, [])
  | (pname, h) :: rest =>
    let r := h s
    let tail := emitAll rest r.1
    (tail.1,
      (match r.2 with
       | some e => [⟨pname, e, none⟩]
       | none => []) ++ tail.2)

/-- The state resulting from applying every handler's state effect in
order, ignoring failures entirely. -/
def applyAll (handlers : List (String × (σ → σ × Option String))) (s : σ) : σ :=
  handlers.foldl (fun s h => (h.2 s).1) s

/-- The state at which each handler in the list is invoked. -/
def invocationStates (handlers : List (String × (σ → σ × Option String)))
    (s : σ) : List σ :=
  match handlers with
  | [] => []
  | h :: rest => s :: invocationStates rest ((h.2 s).1)

/-- The `plugin:error` events that should be reported: one per handler
whose invocation (at the state it is actually invoked at) throws. -/
def reportedErrors (handlers : List (String × (σ → σ × Option String)))
    (s : σ) : List PluginErrorEvent :=
  (handlers.zip (invocationStates handlers s)).filterMap
    (fun q => ((q.1.2 q.2).2).map (fun e => ⟨q.1.1, e, none⟩))

/-- Claim C5: for every handler list registered for an event and every
state, `emit` invokes every handler — the final state is the one obtained
by applying every handler's effect in order, so a failure thrown by one
handler does not prevent the remaining handlers from running — and the
failures are isolated and reported as one `plugin:error` event per failing
handler, attributed to that handler's plugin; `emit` returns this pair
normally rather than rejecting. -/
theorem emit_isolates_handler_failures
    (handlers : List (String × (σ → σ × Option String))) (s : σ) :
    emitAll handlers s = (applyAll handlers s, reportedErrors handlers s) ∧
    (invocationStates handlers s).length = handlers.length := by
  induction handlers generalizing s with
  | nil => exact ⟨rfl, rfl⟩
  | cons h rest ih =>
    obtain ⟨pname, hf⟩ := h
    constructor
    · rw [emitAll]
      have ihr := (ih ((hf s).1)).1
      rw [ihr]
      simp only [applyAll, List.foldl_cons, reportedErrors, invocationStates,
        List.zip_cons_cons, List.filterMap_cons]
      cases hth : (hf s).2 with
      | none => simp [hth]
      | some e => simp [hth]
    · rw [invocationStates, List.length_cons, List.length_cons]
      rw [(ih ((hf s).1)).2]

/-! ## The hook manager `preventDefault` contract (claim C6)

`WOPRHookManager` (`src/events.ts`) declares mutable hooks
(`message:incoming`, `message:outgoing`, `channel:message`) whose handlers
receive a `MutableHookEvent<T>` with `preventDefault()`/`isPrevented()`,
and read-only hooks (`session:create`, `session:destroy`) whose handlers
receive plain payload records with no `preventDefault` member.  The hook
manager implementation is in the core runtime; the chain semantics are
modelled from the spec.  The handler chain is taken already ordered by
ascending priority (ties by registration order). -/

/-- `MutableHookEvent<T>` from `src/events.ts`: the mutable payload, the
session, and the prevented flag that `preventDefault()` sets and
`isPrevented()` reads. -/
structure MutableHookEvent (δ : Type) where
  data : δ
  session : String
  prevented : Bool

/-- One mutable hook handler: given the event's current data and its
`isPrevented()` state, it returns the (possibly transformed) data and
whether it called `preventDefault()`.  Handlers cannot unset a previous
`preventDefault`. -/
structure MutableHookHandler (δ : Type) where
  run : δ → Bool → δ × Bool

/-- Modelled from the spec: one step of the hook chain — the handler sees
the event, may transform its data, and may call `preventDefault()`, which
latches the prevented flag. -/
def applyHook (h : MutableHookHandler δ) (e : MutableHookEvent δ) :
    MutableHookEvent δ :=
  { e with
    data := (h.run e.data e.prevented).1
    prevented := e.prevented || (h.run e.data e.prevented).2 }

/-- Modelled from the spec: the hook manager runs the whole
priority-ordered chain; every handler runs, prevented or not. -/
def runChain (hs : List (MutableHookHandler δ)) (e : MutableHookEvent δ) :
    MutableHookEvent δ :=
  hs.foldl (fun e h => applyHook h e) e

/-- Modelled from the spec: after the chain, the host performs the default
action (e.g. delivers the message, yielding the final data) only when no
handler prevented it. -/
def hostDefaultAction (hs : List (MutableHookHandler δ))
    (e : MutableHookEvent δ) : Option δ :=
  if (runChain hs e).prevented then none else some (runChain hs e).data

/-- The `session:create` read-only hook payload from `src/events.ts`
(`SessionCreateHandler`): no `preventDefault` member exists on it.  TS
`unknown` is modelled as `String`. -/
structure SessionCreateHookEvent where
  session : String
  config : Option String

/-- The `session:destroy` read-only hook payload from `src/events.ts`
(`SessionDestroyHandler`): no `preventDefault` member exists on it. -/
structure SessionDestroyHookEvent where
  session : String
  history : List String
  reason : Option String

/-- Modelled from the spec: read-only hooks only observe; the host's
default action goes ahead unconditionally, whatever the handlers are. -/
def readonlyHostDefaultAction (_hs : List (ε → Unit)) (e : ε) : Option ε :=
  some e

theorem runChain_prevented_mono (hs : List (MutableHookHandler δ))
    (e : MutableHookEvent δ) (he : e.prevented = true) :
    (runChain hs e).prevented = true := by
  induction hs generalizing e with
  | nil => exact he
  | cons h rest ih =>
    rw [runChain, List.foldl_cons]
    exact ih (applyHook h e) (by rw [applyHook, he]; rfl)

theorem runChain_append (pre post : List (MutableHookHandler δ))
    (e : MutableHookEvent δ) :
    runChain (pre ++ post) e = runChain post (runChain pre e) := by
  rw [runChain, runChain, runChain, List.foldl_append]

/-- Claim C6: for the mutable hooks, if the handler at any position of the
priority-ordered chain calls `preventDefault()` when invoked, the host
never performs the default action — even though the whole remainder of the
chain still runs on the event that handler produced; and the read-only
hooks `session:create` and `session:destroy` receive payloads with no
`preventDefault` capability, so their handlers can never suppress the
host's default action. -/
theorem preventDefault_blocks_default_action
    (pre post : List (MutableHookHandler δ)) (h : MutableHookHandler δ)
    (e : MutableHookEvent δ)
    (hcall : (h.run (runChain pre e).data (runChain pre e).prevented).2 = true) :
    hostDefaultAction (pre ++ h :: post) e = none ∧
    runChain (pre ++ h :: post) e =
      runChain post (applyHook h (runChain pre e)) ∧
    (∀ hs : List (SessionCreateHookEvent → Unit), ∀ ev,
      readonlyHostDefaultAction hs ev = some ev) ∧
    (∀ hs : List (SessionDestroyHookEvent → Unit), ∀ ev,
      readonlyHostDefaultAction hs ev = some ev) := by
  have hrun : runChain (pre ++ h :: post) e =
      runChain post (applyHook h (runChain pre e)) := by
    rw [runChain_append, runChain, List.foldl_cons]
    rfl
  refine ⟨?_, hrun, fun _ _ => rfl, fun _ _ => rfl⟩
  rw [hostDefaultAction, hrun]
  have hprev : (applyHook h (runChain pre e)).prevented = true := by
    rw [applyHook, hcall]
    simp
  rw [runChain_prevented_mono post _ hprev]
  rfl

/-- Witness for claim C6: a two-handler chain on string payloads where the
first handler calls `preventDefault()`; the host performs no default
action although the second handler still transforms the data. -/
theorem preventDefault_blocks_default_action_witness :
    hostDefaultAction
      [⟨fun d _ => (d, true)⟩, ⟨fun d _ => (d ++ "!", false)⟩]
      (⟨"hello", "s1", false⟩ : MutableHookEvent String) = none ∧
    runChain
      [⟨fun d _ => (d, true)⟩, ⟨fun d _ => (d ++ "!", false)⟩]
      (⟨"hello", "s1", false⟩ : MutableHookEvent String) =
      runChain [⟨fun d _ => (d ++ "!", false)⟩]
        (applyHook ⟨fun d _ => (d, true)⟩
          (runChain [] (⟨"hello", "s1", false⟩ : MutableHookEvent String))) ∧
    (∀ hs : List (SessionCreateHookEvent → Unit), ∀ ev,
      readonlyHostDefaultAction hs ev = some ev) ∧
    (∀ hs : List (SessionDestroyHookEvent → Unit), ∀ ev,
      readonlyHostDefaultAction hs ev = some ev) :=
  preventDefault_blocks_default_action
    [] [⟨fun d _ => (d ++ "!", false)⟩] ⟨fun d _ => (d, true)⟩
    ⟨"hello", "s1", false⟩ rfl

end WoprPluginTypes
